import Mathlib

/-
Verification of the Velovs finance repository.

The repository ships two concrete source files (the `WelcomeEmail` react-email
template and the `Home` landing page); those are embedded directly below.  The
backend components described by the specification (webhook handlers, the
transaction orchestrator, the rate limiter and the connection manager) are not
part of the shipped sources, so they are modelled from the specification text;
every such definition carries a doc comment saying so.
-/

/-- A value of a JSX attribute: either a plain string or a style object,
modelled as an ordered list of CSS property/value pairs, in source order. -/
inductive PropValue where
  | str : String → PropValue
  | style : List (String × String) → PropValue

/-- A rendered React element tree: a text node, or an element carrying its
tag (or component name), its props in source order, and its children. -/
inductive Element where
  | text : String → Element
  | node : String → List (String × PropValue) → List Element → Element

/-- Look up a prop of an element by name (first match, as JSX attributes are
unique per element). -/
def Element.prop : Element → String → Option PropValue
  | Element.text _, _ => none
  | Element.node _ props _, key =>
      (props.find? (fun kv => kv.1 == key)).map (fun kv => kv.2)

/-- The i-th child of an element, if any. -/
def Element.childAt : Element → Nat → Option Element
  | Element.text _, _ => none
  | Element.node _ _ children, i => children.get? i

/-- Props of the `WelcomeEmail` component (src/unnamed/part_000). -/
structure WelcomeEmailProps where
  firstName : String
  dashboardUrl : String

/-- The body text style shared by the paragraphs of the welcome email,
with the margin varying per paragraph. -/
def welcomeBodyStyle (margin : String) : PropValue :=
  PropValue.style
    [("fontSize", "16px"), ("lineHeight", "26px"), ("color", "#374151"),
     ("margin", margin)]

/-- Embedding of `WelcomeEmail` from src/unnamed/part_000: builds the element
tree returned by the component, with `firstName` interpolated in the preview
and title template literals and `dashboardUrl` passed to the button href. -/
def WelcomeEmail (p : WelcomeEmailProps) : Element :=
  Element.node "BaseEmail"
    [("preview", PropValue.str ("Welcome to Velovs & Co, " ++ p.firstName ++ "!")),
     ("title", PropValue.str ("Welcome aboard, " ++ p.firstName ++ "! 🎉"))]
    [Element.node "Text" [("style", welcomeBodyStyle "0 0 20px 0")]
       [Element.text "Thank you for joining Velovs & Co! We\x27re excited to have you as part of our community."],
     Element.node "Text" [("style", welcomeBodyStyle "0 0 20px 0")]
       [Element.text "You\x27ve been granted ",
        Element.node "strong" [] [Element.text "10 free credits"],
        Element.text " to get started. These credits can be used to:"],
     Element.node "Section" [("style", PropValue.style [("margin", "20px 0")])]
       [Element.node "Text" [("style", welcomeBodyStyle "0 0 10px 0")]
          [Element.text "• 📊 Access your comprehensive financial dashboard"],
        Element.node "Text" [("style", welcomeBodyStyle "0 0 10px 0")]
          [Element.text "• 📈 Track your portfolio in real-time"],
        Element.node "Text" [("style", welcomeBodyStyle "0 0 10px 0")]
          [Element.text "• 🤖 Get AI-powered financial insights instantly"],
        Element.node "Text" [("style", welcomeBodyStyle "0 0 20px 0")]
          [Element.text "• 🔒 Manage secure transactions with confidence"]],
     Element.node "Section"
       [("style", PropValue.style [("textAlign", "center"), ("margin", "30px 0")])]
       [Element.node "Button"
          [("href", PropValue.str p.dashboardUrl),
           ("style", PropValue.style
             [("backgroundColor", "#3b82f6"), ("borderRadius", "6px"),
              ("color", "#ffffff"), ("fontSize", "16px"), ("fontWeight", "600"),
              ("textDecoration", "none"), ("textAlign", "center"),
              ("display", "inline-block"), ("padding", "12px 24px")])]
          [Element.text "Get Started Now"]],
     Element.node "Text" [("style", welcomeBodyStyle "0 0 20px 0")]
       [Element.text "If you have any questions or need help getting started, don\x27t hesitate to reach out to our support team."],
     Element.node "Text" [("style", welcomeBodyStyle "0")]
       [Element.text "Best regards,",
        Element.node "br" [] [],
        Element.text "The Velovs Team"]]

/-- Embedding of `Home` from src/src/app/page.tsx: the component takes no
parameters (modelled as `Unit`) and returns a fixed element tree. -/
def Home (_u : Unit) : Element :=
  Element.node "div"
    [("className", PropValue.str "min-h-screen w-full bg-black flex items-center justify-center")]
    [Element.node "h1"
       [("className", PropValue.str "text-white text-[200px] font-black tracking-tighter leading-none")]
       [Element.text "Velovs",
        Element.node "sup"
          [("className", PropValue.str "text-[80px] font-black ml-1")]
          [Element.text "TM"]]]

/-- C8: for every `firstName`, the element returned by `WelcomeEmail` has
preview exactly "Welcome to Velovs & Co, " ++ firstName ++ "!" and title
exactly "Welcome aboard, " ++ firstName ++ "! 🎉", with `firstName`
interpolated verbatim (the equality is over arbitrary strings, so no
escaping, truncation or validation happens). -/
theorem welcomeEmail_preview_title (firstName dashboardUrl : String) :
    (WelcomeEmail ⟨firstName, dashboardUrl⟩).prop "preview"
        = some (PropValue.str ("Welcome to Velovs & Co, " ++ firstName ++ "!"))
      ∧ (WelcomeEmail ⟨firstName, dashboardUrl⟩).prop "title"
        = some (PropValue.str ("Welcome aboard, " ++ firstName ++ "! 🎉")) := by
  constructor <;> rfl

/-- C9: for every `dashboardUrl` string, URL-shaped or not, the
"Get Started Now" button of the welcome email (the sole child of the fourth
child of the returned element) carries `href` exactly equal to
`dashboardUrl`, unchanged. -/
theorem welcomeEmail_button_href (firstName dashboardUrl : String) :
    (((WelcomeEmail ⟨firstName, dashboardUrl⟩).childAt 3).bind
        (fun e => e.childAt 0)).bind (fun e => e.prop "href")
      = some (PropValue.str dashboardUrl)
    ∧ (((WelcomeEmail ⟨firstName, dashboardUrl⟩).childAt 3).bind
        (fun e => e.childAt 0)).bind (fun e => e.childAt 0)
      = some (Element.text "Get Started Now") := by
  constructor <;> rfl

/-- C10: `Home` is deterministic and input-free: any two invocations return
equal element trees, and the fixed page's heading is "Velovs" with a
superscript "TM". -/
theorem home_deterministic_fixed :
    (∀ u v : Unit, Home u = Home v)
    ∧ ((Home ()).childAt 0).bind (fun e => e.childAt 0)
        = some (Element.text "Velovs")
    ∧ ((Home ()).childAt 0).bind (fun e => e.childAt 1)
        = some (Element.node "sup"
            [("className", PropValue.str "text-[80px] font-black ml-1")]
            [Element.text "TM"]) := by
  exact ⟨fun _ _ => rfl, rfl, rfl⟩

/-- Modelled from the spec: the payment-provider tag enum
{stripe, lemonsqueezy, webxpay} of the PaymentHistory collection (spec section 3);
the persistence layer itself is not among the shipped sources. -/
inductive Provider where
  | stripe
  | lemonsqueezy
  | webxpay
deriving DecidableEq

/-- Modelled from the spec: a PaymentHistory record — provider tag,
provider-specific event id, status, amount, raw original payload and a
reference to the owning user (spec section 3). -/
structure PaymentRecord where
  provider : Provider
  eventId : String
  status : String
  amount : Int
  rawPayload : String
  userId : String
deriving DecidableEq

/-- Modelled from the spec: a User document — identity-provider subject id
plus denormalized plan fields (spec section 3). -/
structure UserRecord where
  subjectId : String
  planTier : String
  creditBalance : Int
deriving DecidableEq

/-- Modelled from the spec: the document store owning the two primary
collections, User and PaymentHistory (spec sections 3 and 6). -/
structure Store where
  users : List UserRecord
  payments : List PaymentRecord
deriving DecidableEq

/-- The empty document store. -/
def emptyStore : Store := ⟨[], []⟩

/-- Modelled from the spec: the downstream side effects a canonical action may
trigger (welcome email on user creation, post-commit notification when a
payment is recorded); the effect executors are external collaborators. -/
inductive SideEffect where
  | sendWelcomeEmail (userId : String)
  | notifyPaymentRecorded (provider : Provider) (eventId : String)
deriving DecidableEq

/-- Modelled from the spec: the parsed provider event envelope — provider tag,
provider event id, provider event type and the payment/user fields the
canonical actions consume (spec sections 3 and 4.3). -/
structure ProviderEvent where
  provider : Provider
  eventId : String
  eventType : String
  status : String
  amount : Int
  userId : String
  raw : String
deriving DecidableEq

/-- The PaymentHistory records matching a (provider, event id) pair. -/
def paymentsFor (s : Store) (pv : Provider) (eid : String) : List PaymentRecord :=
  s.payments.filter (fun r => r.provider == pv && r.eventId == eid)

/-- Whether a PaymentHistory record for the (provider, event id) pair exists. -/
def hasPayment (s : Store) (pv : Provider) (eid : String) : Bool :=
  !(paymentsFor s pv eid).isEmpty

/-- The number of PaymentHistory records for a (provider, event id) pair. -/
def countPayments (s : Store) (pv : Provider) (eid : String) : Nat :=
  (paymentsFor s pv eid).length

/-- The PaymentHistory record created for an event. -/
def recordOf (e : ProviderEvent) : PaymentRecord :=
  ⟨e.provider, e.eventId, e.status, e.amount, e.raw, e.userId⟩

/-- Modelled from the spec: idempotent insertion of a PaymentHistory record —
a no-op when a record for the (provider, event id) pair already exists,
otherwise the record is created and the downstream side effects fire once
(spec sections 3 and 4.3). -/
def applyPaymentEvent (s : Store) (e : ProviderEvent) : Store × List SideEffect :=
  if hasPayment s e.provider e.eventId then (s, [])
  else (⟨s.users, recordOf e :: s.payments⟩,
        [SideEffect.notifyPaymentRecorded e.provider e.eventId])

/-- Replaying the same payment event n times, accumulating the side effects
emitted across the n applications. -/
def replayPaymentEvent (s : Store) (e : ProviderEvent) : Nat → Store × List SideEffect
  | 0 => (s, [])
  | n + 1 =>
      let r1 := applyPaymentEvent s e
      let r2 := replayPaymentEvent r1.1 e n
      (r2.1, r1.2 ++ r2.2)

theorem hasPayment_after_apply (s : Store) (e : ProviderEvent) :
    hasPayment (applyPaymentEvent s e).1 e.provider e.eventId = true := by
  unfold applyPaymentEvent
  by_cases h : hasPayment s e.provider e.eventId
  · simp [h]
  · simp only [h]
    simp [hasPayment, paymentsFor, recordOf]

theorem applyPaymentEvent_noop (s : Store) (e : ProviderEvent)
    (h : hasPayment s e.provider e.eventId = true) :
    applyPaymentEvent s e = (s, []) := by
  unfold applyPaymentEvent
  simp [h]

theorem replayPaymentEvent_noop (s : Store) (e : ProviderEvent) (n : Nat)
    (h : hasPayment s e.provider e.eventId = true) :
    replayPaymentEvent s e n = (s, []) := by
  induction n with
  | zero => rfl
  | succ n ih =>
      unfold replayPaymentEvent
      rw [applyPaymentEvent_noop s e h]
      simp [ih]

/-- Modelled from the spec: the closed set of canonical actions every
provider's event vocabulary is mapped into (spec section 4.3). -/
inductive CanonicalAction where
  | userCreated
  | userUpdated
  | subscriptionCreated
  | subscriptionUpdated
  | subscriptionCanceled
  | paymentSucceeded
  | paymentFailed
deriving DecidableEq

/-- The names of the canonical actions, i.e. the event types this system
acts on. -/
def canonicalEventTypes : List String :=
  ["user.created", "user.updated", "subscription.created",
   "subscription.updated", "subscription.canceled",
   "payment.succeeded", "payment.failed"]

/-- Modelled from the spec: event mapping from an event type to the closed
set of canonical actions; any type outside the set maps to none
(spec section 4.3). -/
def canonicalOfType (ty : String) : Option CanonicalAction :=
  if ty = "user.created" then some CanonicalAction.userCreated
  else if ty = "user.updated" then some CanonicalAction.userUpdated
  else if ty = "subscription.created" then some CanonicalAction.subscriptionCreated
  else if ty = "subscription.updated" then some CanonicalAction.subscriptionUpdated
  else if ty = "subscription.canceled" then some CanonicalAction.subscriptionCanceled
  else if ty = "payment.succeeded" then some CanonicalAction.paymentSucceeded
  else if ty = "payment.failed" then some CanonicalAction.paymentFailed
  else none

/-- Update the denormalized plan fields of the user owning a subscription
event. -/
def setPlan (s : Store) (uid tier : String) : Store :=
  ⟨s.users.map (fun u => if u.subjectId == uid then ⟨u.subjectId, tier, u.creditBalance⟩ else u),
   s.payments⟩

/-- Modelled from the spec: application of a canonical action to the document
store — user creation is keyed by subject id (exactly one user per subject
id), subscription events mutate the owner's denormalized plan fields, and
payment events insert a PaymentHistory record idempotently
(spec sections 3 and 4.3). -/
def applyAction (s : Store) (act : CanonicalAction) (ev : ProviderEvent) :
    Store × List SideEffect :=
  match act with
  | CanonicalAction.userCreated =>
      if s.users.any (fun u => u.subjectId == ev.userId) then (s, [])
      else (⟨⟨ev.userId, "free", 10⟩ :: s.users, s.payments⟩,
            [SideEffect.sendWelcomeEmail ev.userId])
  | CanonicalAction.userUpdated => (setPlan s ev.userId ev.status, [])
  | CanonicalAction.subscriptionCreated => (setPlan s ev.userId ev.status, [])
  | CanonicalAction.subscriptionUpdated => (setPlan s ev.userId ev.status, [])
  | CanonicalAction.subscriptionCanceled => (setPlan s ev.userId "canceled", [])
  | CanonicalAction.paymentSucceeded => applyPaymentEvent s ev
  | CanonicalAction.paymentFailed => applyPaymentEvent s ev

/-- Modelled from the spec: the orchestrator error taxonomy relevant here —
a transaction failure (the work failed, the transaction aborted) is distinct
from a reconciliation failure (the post-commit external step failed)
(spec sections 4.2 and 7). -/
inductive OrchestratorError where
  | transactionFailure (msg : String)
  | reconciliationFailure (msg : String)
deriving DecidableEq

/-- Modelled from the spec: `withTransaction(work)` runs `work` with a
transaction-scoped handle, commits when `work` completes, aborts and
propagates the error otherwise; the returned state is the database state
visible afterwards (spec section 4.2). -/
def withTransaction {σ α : Type} (work : σ → Except String (σ × α)) (db : σ) :
    σ × Except OrchestratorError α :=
  match work db with
  | Except.error e => (db, Except.error (OrchestratorError.transactionFailure e))
  | Except.ok (db2, a) => (db2, Except.ok a)

/-- Modelled from the spec: `withTransactionAndExternal(work, afterCommit)`
runs `work` in a transaction and, only if the commit succeeds, invokes
`afterCommit` on its result; an `afterCommit` failure leaves the committed
state in place and is reported as a reconciliation failure
(spec section 4.2). -/
def withTransactionAndExternal {σ α β : Type}
    (work : σ → Except String (σ × α)) (afterCommit : α → Except String β)
    (db : σ) : σ × Except OrchestratorError β :=
  match withTransaction work db with
  | (db2, Except.error e) => (db2, Except.error e)
  | (db2, Except.ok a) =>
      match afterCommit a with
      | Except.error e =>
          (db2, Except.error (OrchestratorError.reconciliationFailure e))
      | Except.ok b => (db2, Except.ok b)

/-- Modelled from the spec: a raw webhook request, a signed POST body
(spec section 6). -/
structure RawRequest where
  body : String
  signature : String
deriving DecidableEq

/-- Modelled from the spec: handler outcome — rejected with a 4xx-equivalent
signal, or acknowledged with a success-equivalent response
(spec section 4.3). -/
inductive HandlerResult where
  | rejected (code : Nat)
  | acknowledged
deriving DecidableEq

/-- The observable outcome of one webhook request: response, resulting store
state, and the downstream side effects performed. -/
structure HandlerOutcome where
  result : HandlerResult
  store : Store
  effects : List SideEffect
deriving DecidableEq

/-- Modelled from the spec: the per-request webhook pipeline — verify the
provider-specific signature before any parsing, parse the envelope, map the
event type to a canonical action (unknown types are acknowledged without
action), and apply the action through the transaction orchestrator
(spec section 4.3).  `verify` and `parse` stand for the provider-specific
signature check and envelope parser. -/
def handleWebhook (verify : RawRequest → Bool)
    (parse : String → Option ProviderEvent) (s : Store) (req : RawRequest) :
    HandlerOutcome :=
  if verify req then
    match parse req.body with
    | none => ⟨HandlerResult.rejected 400, s, []⟩
    | some ev =>
        match canonicalOfType ev.eventType with
        | none => ⟨HandlerResult.acknowledged, s, []⟩
        | some act =>
            match withTransaction (fun st => Except.ok (applyAction st act ev)) s with
            | (s2, Except.ok effs) => ⟨HandlerResult.acknowledged, s2, effs⟩
            | (s2, Except.error _) => ⟨HandlerResult.rejected 500, s2, []⟩
  else ⟨HandlerResult.rejected 401, s, []⟩

/-- Modelled from the spec: the rate-limiter key, a pair of client identity
and route category (spec section 4.4). -/
abbrev RateKey := String × String

/-- Modelled from the spec: a per-category rate-limit configuration
{limit, windowSeconds} (spec section 4.4). -/
structure RateConfig where
  limit : Nat
  windowSeconds : Nat
deriving DecidableEq

/-- Modelled from the spec: the configuration the claims exercise,
limit=5 and windowSeconds=60 (spec section 8). -/
def webhookRateLimit : RateConfig := ⟨5, 60⟩

/-- Drop the recorded timestamps older than the window ending at `now`:
keep t exactly when now - t < windowSeconds. -/
def pruneOld (cfg : RateConfig) (now : Nat) (ts : List Nat) : List Nat :=
  ts.filter (fun t => now < t + cfg.windowSeconds)

/-- Modelled from the spec: one rate-limiter check on a single key's recorded
timestamps — prune timestamps older than the window, count the rest, reject
when count ≥ limit, otherwise record this call's timestamp and allow
(spec section 4.4). -/
def rateLimitCall1 (cfg : RateConfig) (ts : List Nat) (now : Nat) :
    Bool × List Nat :=
  let pruned := pruneOld cfg now ts
  if cfg.limit ≤ pruned.length then (false, pruned)
  else (true, now :: pruned)

/-- The per-key sliding-window state of the in-process limiter. -/
def LimiterState : Type := RateKey → List Nat

/-- The limiter state at process start: no recorded calls for any key. -/
def emptyLimiter : LimiterState := fun _ => []

/-- Modelled from the spec: one rate-limiter check keyed by
(client identity, route category); only the checked key's timestamp list
changes (spec section 4.4). -/
def rateLimitCall (cfg : RateConfig) (st : LimiterState) (k : RateKey)
    (now : Nat) : Bool × LimiterState :=
  let r := rateLimitCall1 cfg (st k) now
  (r.1, fun k2 => if k2 = k then r.2 else st k2)

/-- Run the limiter over a sequence of calls on one key, collecting each
call's allow/reject decision. -/
def rateLimitRun (cfg : RateConfig) (st : LimiterState) (k : RateKey) :
    List Nat → List Bool × LimiterState
  | [] => ([], st)
  | now :: rest =>
      let r := rateLimitCall cfg st k now
      let rs := rateLimitRun cfg r.2 k rest
      (r.1 :: rs.1, rs.2)

/-- Single-key version of `rateLimitRun`, tracking only the checked key's
timestamp list. -/
def rateLimitRun1 (cfg : RateConfig) (ts : List Nat) :
    List Nat → List Bool × List Nat
  | [] => ([], ts)
  | now :: rest =>
      let r := rateLimitCall1 cfg ts now
      let rs := rateLimitRun1 cfg r.2 rest
      (r.1 :: rs.1, rs.2)

theorem rateLimitRun_eq_run1 (cfg : RateConfig) (st : LimiterState)
    (k : RateKey) (calls : List Nat) :
    (rateLimitRun cfg st k calls).1 = (rateLimitRun1 cfg (st k) calls).1 := by
  induction calls generalizing st with
  | nil => rfl
  | cons now rest ih =>
      unfold rateLimitRun rateLimitRun1 rateLimitCall
      simp [ih]

/-- Modelled from the spec: the connection error raised when `connect()`
exhausts its retries (spec sections 4.1 and 7). -/
inductive ConnectionError where
  | connectionError
deriving DecidableEq

/-- The result of one `connect()` invocation: the outcome (a ready connection
handle or a `ConnectionError`), how many attempts were made, and the total
backoff time waited between attempts, in seconds. -/
structure ConnectResult where
  outcome : Except ConnectionError Nat
  attemptsMade : Nat
  totalWait : Nat

/-- Modelled from the spec: the fixed retry count of `connect()`
(spec section 4.1). -/
def maxRetries : Nat := 3

/-- Modelled from the spec: exponential backoff between attempts; a base
delay of 2s doubled after each failure keeps the total wait
(2 + 4 + 8 = 14s) within the 30s bound (spec section 4.1). -/
def backoffDelay (i : Nat) : Nat := 2 * 2 ^ i

/-- Modelled from the spec: the retry loop of `connect()` — try attempt `i`,
succeed with the ready connection, or wait the exponential backoff and retry
while attempts remain (spec section 4.1).  `attempt i` is the outcome the
database yields for the i-th attempt. -/
def connectAux (attempt : Nat → Option Nat) (i waited : Nat) :
    Nat → ConnectResult
  | 0 => ⟨Except.error ConnectionError.connectionError, i, waited⟩
  | remaining + 1 =>
      match attempt i with
      | some c => ⟨Except.ok c, i + 1, waited⟩
      | none =>
          match remaining with
          | 0 => ⟨Except.error ConnectionError.connectionError, i + 1, waited⟩
          | r + 1 => connectAux attempt (i + 1) (waited + backoffDelay i) (r + 1)

/-- Modelled from the spec: `connect()` — an initial attempt plus up to
`maxRetries` retries with exponential backoff (spec section 4.1). -/
def connect (attempt : Nat → Option Nat) : ConnectResult :=
  connectAux attempt 0 0 (maxRetries + 1)

theorem countPayments_after_apply (s : Store) (e : ProviderEvent)
    (hfresh : hasPayment s e.provider e.eventId = false) :
    countPayments (applyPaymentEvent s e).1 e.provider e.eventId = 1 := by
  have hnil : paymentsFor s e.provider e.eventId = [] := by
    have := hfresh
    unfold hasPayment at this
    simpa [List.isEmpty_iff] using this
  unfold applyPaymentEvent
  rw [hfresh]
  simp only [Bool.false_eq_true, if_false]
  unfold countPayments paymentsFor at hnil ⊢
  simp [List.filter_cons, recordOf, hnil]

/-- C1: replaying a valid payment payload N ≥ 1 times, starting from a store
with no record for its (provider, event id) pair, produces the same store and
the same single batch of side effects as applying it once, leaves exactly one
PaymentHistory record for the pair, and a further application is a no-op. -/
theorem payment_replay_idempotent (s : Store) (e : ProviderEvent) (n : Nat)
    (hfresh : hasPayment s e.provider e.eventId = false) (hn : 1 ≤ n) :
    replayPaymentEvent s e n = applyPaymentEvent s e
    ∧ countPayments (replayPaymentEvent s e n).1 e.provider e.eventId = 1
    ∧ applyPaymentEvent (replayPaymentEvent s e n).1 e
        = ((replayPaymentEvent s e n).1, []) := by
  obtain ⟨m, rfl⟩ : ∃ m, n = m + 1 := ⟨n - 1, by omega⟩
  have h1 : replayPaymentEvent s e (m + 1) = applyPaymentEvent s e := by
    have hnoop := replayPaymentEvent_noop (applyPaymentEvent s e).1 e m
      (hasPayment_after_apply s e)
    simp only [replayPaymentEvent]
    rw [hnoop]
    simp
  refine ⟨h1, ?_, ?_⟩
  · rw [h1]
    exact countPayments_after_apply s e hfresh
  · rw [h1]
    exact applyPaymentEvent_noop _ e (hasPayment_after_apply s e)

/-- Witness for C1 at a concrete stripe payment event replayed three times. -/
theorem payment_replay_idempotent_witness :
    hasPayment emptyStore Provider.stripe "evt_1" = false
    ∧ (replayPaymentEvent emptyStore
          ⟨Provider.stripe, "evt_1", "payment.succeeded", "paid", 100, "usr_1", "raw"⟩ 3
        = applyPaymentEvent emptyStore
            ⟨Provider.stripe, "evt_1", "payment.succeeded", "paid", 100, "usr_1", "raw"⟩
      ∧ countPayments (replayPaymentEvent emptyStore
            ⟨Provider.stripe, "evt_1", "payment.succeeded", "paid", 100, "usr_1", "raw"⟩ 3).1
          Provider.stripe "evt_1" = 1
      ∧ applyPaymentEvent (replayPaymentEvent emptyStore
            ⟨Provider.stripe, "evt_1", "payment.succeeded", "paid", 100, "usr_1", "raw"⟩ 3).1
          ⟨Provider.stripe, "evt_1", "payment.succeeded", "paid", 100, "usr_1", "raw"⟩
        = ((replayPaymentEvent emptyStore
            ⟨Provider.stripe, "evt_1", "payment.succeeded", "paid", 100, "usr_1", "raw"⟩ 3).1, [])) :=
  ⟨by decide,
   payment_replay_idempotent emptyStore
     ⟨Provider.stripe, "evt_1", "payment.succeeded", "paid", 100, "usr_1", "raw"⟩ 3
     (by decide) (by decide)⟩

/-- C2: when the signature check fails, the handler rejects the request with a
4xx-equivalent signal, the store is unchanged, no side effect occurs, and the
outcome does not depend on the parser at all (no parsing of the event content
takes place). -/
theorem invalid_signature_rejected (verify : RawRequest → Bool)
    (parse : String → Option ProviderEvent) (s : Store) (req : RawRequest)
    (h : verify req = false) :
    handleWebhook verify parse s req = ⟨HandlerResult.rejected 401, s, []⟩
    ∧ ∀ parse2 : String → Option ProviderEvent,
        handleWebhook verify parse2 s req = handleWebhook verify parse s req := by
  constructor
  · simp [handleWebhook, h]
  · intro parse2
    simp [handleWebhook, h]

/-- Witness for C2 at a concrete request whose signature check fails. -/
theorem invalid_signature_rejected_witness :
    (fun _ : RawRequest => false) ⟨"payload", "bad-sig"⟩ = false
    ∧ handleWebhook (fun _ => false) (fun _ => none) emptyStore ⟨"payload", "bad-sig"⟩
        = ⟨HandlerResult.rejected 401, emptyStore, []⟩ :=
  ⟨rfl,
   (invalid_signature_rejected (fun _ => false) (fun _ => none) emptyStore
      ⟨"payload", "bad-sig"⟩ rfl).1⟩

/-- C3: when the work function fails before completion, `withTransaction`
aborts, propagates the error as a transaction failure, and the visible
database state equals the state before the invocation (no partial writes). -/
theorem withTransaction_allOrNothing {σ α : Type}
    (work : σ → Except String (σ × α)) (db : σ) (e : String)
    (h : work db = Except.error e) :
    withTransaction work db
      = (db, Except.error (OrchestratorError.transactionFailure e)) := by
  unfold withTransaction
  rw [h]

/-- Witness for C3 at a concrete failing work function over a Nat state. -/
theorem withTransaction_allOrNothing_witness :
    (fun _ : Nat => (Except.error "boom" : Except String (Nat × Nat))) 0
        = Except.error "boom"
    ∧ withTransaction (fun _ : Nat => (Except.error "boom" : Except String (Nat × Nat))) 0
        = (0, Except.error (OrchestratorError.transactionFailure "boom")) :=
  ⟨rfl,
   withTransaction_allOrNothing
     (fun _ : Nat => (Except.error "boom" : Except String (Nat × Nat))) 0 "boom" rfl⟩

/-- C4: when the transaction commits and `afterCommit` then fails, the
committed state remains the visible state (never rolled back) and the failure
is reported as a reconciliation error, which is distinct from every
transaction failure. -/
theorem withTransactionAndExternal_reconciliation {σ α β : Type}
    (work : σ → Except String (σ × α)) (afterCommit : α → Except String β)
    (db db2 : σ) (a : α) (e : String)
    (hw : work db = Except.ok (db2, a)) (ha : afterCommit a = Except.error e) :
    withTransactionAndExternal work afterCommit db
      = (db2, Except.error (OrchestratorError.reconciliationFailure e))
    ∧ ∀ m : String,
        OrchestratorError.reconciliationFailure e
          ≠ OrchestratorError.transactionFailure m := by
  constructor
  · simp [withTransactionAndExternal, withTransaction, hw, ha]
  · intro m hcontra
    exact OrchestratorError.noConfusion hcontra

/-- Witness for C4 at a concrete committing work and failing external step. -/
theorem withTransactionAndExternal_reconciliation_witness :
    (fun n : Nat => (Except.ok (n + 1, 7) : Except String (Nat × Nat))) 0
        = Except.ok (1, 7)
    ∧ (fun _ : Nat => (Except.error "down" : Except String Nat)) 7
        = Except.error "down"
    ∧ withTransactionAndExternal
        (fun n : Nat => (Except.ok (n + 1, 7) : Except String (Nat × Nat)))
        (fun _ : Nat => (Except.error "down" : Except String Nat)) 0
        = (1, Except.error (OrchestratorError.reconciliationFailure "down")) :=
  ⟨rfl, rfl,
   (withTransactionAndExternal_reconciliation
      (fun n : Nat => (Except.ok (n + 1, 7) : Except String (Nat × Nat)))
      (fun _ : Nat => (Except.error "down" : Except String Nat)) 0 1 7 "down"
      rfl rfl).1⟩

theorem pruneOld_keep_all (cfg : RateConfig) (now : Nat) (ts : List Nat)
    (h : ∀ t ∈ ts, now < t + cfg.windowSeconds) :
    pruneOld cfg now ts = ts := by
  unfold pruneOld
  exact List.filter_eq_self.mpr (fun t ht => by simpa using h t ht)

theorem pruneOld_drop_all (cfg : RateConfig) (now : Nat) (ts : List Nat)
    (h : ∀ t ∈ ts, t + cfg.windowSeconds ≤ now) :
    pruneOld cfg now ts = [] := by
  unfold pruneOld
  exact List.filter_eq_nil_iff.mpr (fun t ht => by simpa using h t ht)

theorem rateLimitCall1_allowed (cfg : RateConfig) (ts : List Nat) (now : Nat)
    (hkeep : ∀ t ∈ ts, now < t + cfg.windowSeconds)
    (hlen : ts.length < cfg.limit) :
    rateLimitCall1 cfg ts now = (true, now :: ts) := by
  simp only [rateLimitCall1]
  rw [pruneOld_keep_all cfg now ts hkeep, if_neg (by omega)]

theorem rateLimitCall1_rejected (cfg : RateConfig) (ts : List Nat) (now : Nat)
    (hkeep : ∀ t ∈ ts, now < t + cfg.windowSeconds)
    (hlen : cfg.limit ≤ ts.length) :
    rateLimitCall1 cfg ts now = (false, ts) := by
  simp only [rateLimitCall1]
  rw [pruneOld_keep_all cfg now ts hkeep, if_pos hlen]

theorem rateLimitCall1_fresh (cfg : RateConfig) (ts : List Nat) (now : Nat)
    (hdrop : ∀ t ∈ ts, t + cfg.windowSeconds ≤ now)
    (hpos : 0 < cfg.limit) :
    rateLimitCall1 cfg ts now = (true, [now]) := by
  simp only [rateLimitCall1]
  rw [pruneOld_drop_all cfg now ts hdrop, if_neg (by simp; omega)]

theorem rateLimit1_scenario (t0 t1 t2 t3 t4 t5 t6 : Nat)
    (h01 : t0 ≤ t1) (h12 : t1 ≤ t2) (h23 : t2 ≤ t3) (h34 : t3 ≤ t4)
    (h45 : t4 ≤ t5) (hwin : t5 < t0 + 60) (hgap : t4 + 60 ≤ t6) :
    (rateLimitRun1 webhookRateLimit [] [t0, t1, t2, t3, t4, t5, t6]).1
      = [true, true, true, true, true, false, true] := by
  have c0 : rateLimitCall1 webhookRateLimit [] t0 = (true, [t0]) :=
    rateLimitCall1_allowed _ _ _ (by intro t ht; simp at ht)
      (by simp [webhookRateLimit])
  have c1 : rateLimitCall1 webhookRateLimit [t0] t1 = (true, [t1, t0]) :=
    rateLimitCall1_allowed _ _ _
      (by intro t ht; simp at ht; subst ht; simp [webhookRateLimit]; omega)
      (by simp [webhookRateLimit])
  have c2 : rateLimitCall1 webhookRateLimit [t1, t0] t2 = (true, [t2, t1, t0]) :=
    rateLimitCall1_allowed _ _ _
      (by intro t ht; simp at ht; simp only [webhookRateLimit]
          rcases ht with rfl | rfl <;> omega)
      (by simp [webhookRateLimit])
  have c3 : rateLimitCall1 webhookRateLimit [t2, t1, t0] t3
      = (true, [t3, t2, t1, t0]) :=
    rateLimitCall1_allowed _ _ _
      (by intro t ht; simp at ht; simp only [webhookRateLimit]
          rcases ht with rfl | rfl | rfl <;> omega)
      (by simp [webhookRateLimit])
  have c4 : rateLimitCall1 webhookRateLimit [t3, t2, t1, t0] t4
      = (true, [t4, t3, t2, t1, t0]) :=
    rateLimitCall1_allowed _ _ _
      (by intro t ht; simp at ht; simp only [webhookRateLimit]
          rcases ht with rfl | rfl | rfl | rfl <;> omega)
      (by simp [webhookRateLimit])
  have c5 : rateLimitCall1 webhookRateLimit [t4, t3, t2, t1, t0] t5
      = (false, [t4, t3, t2, t1, t0]) :=
    rateLimitCall1_rejected _ _ _
      (by intro t ht; simp at ht; simp only [webhookRateLimit]
          rcases ht with rfl | rfl | rfl | rfl | rfl <;> omega)
      (by simp [webhookRateLimit])
  have c6 : rateLimitCall1 webhookRateLimit [t4, t3, t2, t1, t0] t6
      = (true, [t6]) :=
    rateLimitCall1_fresh _ _ _
      (by intro t ht; simp at ht; simp only [webhookRateLimit]
          rcases ht with rfl | rfl | rfl | rfl | rfl <;> omega)
      (by simp [webhookRateLimit])
  simp only [rateLimitRun1, c0, c1, c2, c3, c4, c5, c6]

/-- C5: on the limit=5, window=60s configuration and any
(client identity, route category) key with no recorded calls, five calls
within one window are allowed, the sixth call within the same window is
rejected with the rate-limit signal, and once every recorded timestamp is
older than the window a further call is allowed again. -/
theorem rateLimiter_window_scenario (k : RateKey) (t0 t1 t2 t3 t4 t5 t6 : Nat)
    (h01 : t0 ≤ t1) (h12 : t1 ≤ t2) (h23 : t2 ≤ t3) (h34 : t3 ≤ t4)
    (h45 : t4 ≤ t5) (hwin : t5 < t0 + 60) (hgap : t4 + 60 ≤ t6) :
    (rateLimitRun webhookRateLimit emptyLimiter k
        [t0, t1, t2, t3, t4, t5, t6]).1
      = [true, true, true, true, true, false, true] := by
  rw [rateLimitRun_eq_run1]
  exact rateLimit1_scenario t0 t1 t2 t3 t4 t5 t6 h01 h12 h23 h34 h45 hwin hgap

/-- Witness for C5 at a concrete key and concrete call times. -/
theorem rateLimiter_window_scenario_witness :
    (rateLimitRun webhookRateLimit emptyLimiter ("client-1", "webhooks")
        [0, 10, 20, 30, 40, 50, 110]).1
      = [true, true, true, true, true, false, true] :=
  rateLimiter_window_scenario ("client-1", "webhooks") 0 10 20 30 40 50 110
    (by omega) (by omega) (by omega) (by omega) (by omega) (by omega) (by omega)

/-- C6: every `connect()` invocation either yields a ready connection — one
produced by some attempt within the retry budget — or fails with
`ConnectionError` only after exhausting the initial attempt plus the fixed
count of 3 retries, and the total exponential-backoff wait between attempts
is bounded by 30 seconds. -/
theorem connect_contract (attempt : Nat → Option Nat) :
    (connect attempt).totalWait ≤ 30
    ∧ ((∃ c, (connect attempt).outcome = Except.ok c
          ∧ ∃ i, i ≤ maxRetries ∧ attempt i = some c)
       ∨ ((connect attempt).outcome
            = Except.error ConnectionError.connectionError
          ∧ (connect attempt).attemptsMade = maxRetries + 1
          ∧ ∀ i, i ≤ maxRetries → attempt i = none)) := by
  rcases h0 : attempt 0 with _ | c0
  · rcases h1 : attempt 1 with _ | c1
    · rcases h2 : attempt 2 with _ | c2
      · rcases h3 : attempt 3 with _ | c3
        · refine ⟨?_, Or.inr ⟨?_, ?_, ?_⟩⟩
          · simp [connect, connectAux, maxRetries, h0, h1, h2, h3, backoffDelay]
          · simp [connect, connectAux, maxRetries, h0, h1, h2, h3]
          · simp [connect, connectAux, maxRetries, h0, h1, h2, h3]
          · intro i hi
            simp only [maxRetries] at hi
            interval_cases i <;> assumption
        · refine ⟨?_, Or.inl ⟨c3, ?_, 3, ?_, h3⟩⟩
          · simp [connect, connectAux, maxRetries, h0, h1, h2, h3, backoffDelay]
          · simp [connect, connectAux, maxRetries, h0, h1, h2, h3]
          · simp [maxRetries]
      · refine ⟨?_, Or.inl ⟨c2, ?_, 2, ?_, h2⟩⟩
        · simp [connect, connectAux, maxRetries, h0, h1, h2, backoffDelay]
        · simp [connect, connectAux, maxRetries, h0, h1, h2]
        · simp [maxRetries]
    · refine ⟨?_, Or.inl ⟨c1, ?_, 1, ?_, h1⟩⟩
      · simp [connect, connectAux, maxRetries, h0, h1, backoffDelay]
      · simp [connect, connectAux, maxRetries, h0, h1]
      · simp [maxRetries]
  · refine ⟨?_, Or.inl ⟨c0, ?_, 0, ?_, h0⟩⟩
    · simp [connect, connectAux, maxRetries, h0]
    · simp [connect, connectAux, maxRetries, h0]
    · simp [maxRetries]

/-- Witness for C6 at the always-failing attempt function: the wait bound
holds and the outcome is the connection error. -/
theorem connect_contract_witness :
    (connect (fun _ => none)).totalWait ≤ 30
    ∧ (connect (fun _ => none)).outcome
        = Except.error ConnectionError.connectionError := by
  have h := connect_contract (fun _ => none)
  rcases h with ⟨hw, hok | herr⟩
  · rcases hok with ⟨c, _, i, _, ha⟩
    simp at ha
  · exact ⟨hw, herr.1⟩

/-- C7: a verified, parsed event whose provider event type is outside the
closed set of canonical action names is acknowledged with a
success-equivalent response and performs no action: the store is unchanged
and no side effect occurs; it is never rejected. -/
theorem unknown_event_acknowledged (verify : RawRequest → Bool)
    (parse : String → Option ProviderEvent) (s : Store) (req : RawRequest)
    (ev : ProviderEvent) (hv : verify req = true)
    (hp : parse req.body = some ev)
    (hty : ev.eventType ∉ canonicalEventTypes) :
    handleWebhook verify parse s req
      = ⟨HandlerResult.acknowledged, s, []⟩ := by
  have hmap : canonicalOfType ev.eventType = none := by
    simp only [canonicalEventTypes, List.mem_cons, List.not_mem_nil, or_false,
      not_or] at hty
    obtain ⟨n1, n2, n3, n4, n5, n6, n7⟩ := hty
    unfold canonicalOfType
    rw [if_neg n1, if_neg n2, if_neg n3, if_neg n4, if_neg n5, if_neg n6,
      if_neg n7]
  simp [handleWebhook, hv, hp, hmap]

/-- Witness for C7 at a concrete ignorable event type. -/
theorem unknown_event_acknowledged_witness :
    (fun _ : RawRequest => true) ⟨"payload", "sig"⟩ = true
    ∧ ("charge.disputed" : String) ∉ canonicalEventTypes
    ∧ handleWebhook (fun _ => true)
        (fun _ => some ⟨Provider.stripe, "evt_9", "charge.disputed", "open",
          0, "usr_9", "raw"⟩)
        emptyStore ⟨"payload", "sig"⟩
        = ⟨HandlerResult.acknowledged, emptyStore, []⟩ :=
  ⟨rfl, by decide,
   unknown_event_acknowledged (fun _ => true)
     (fun _ => some ⟨Provider.stripe, "evt_9", "charge.disputed", "open",
       0, "usr_9", "raw"⟩)
     emptyStore ⟨"payload", "sig"⟩
     ⟨Provider.stripe, "evt_9", "charge.disputed", "open", 0, "usr_9", "raw"⟩
     rfl rfl (by decide)⟩
